import Mathlib

/-!
Verification development for the TradeEdge market-data acquisition subsystem
(backend/analytics/data_fetchers and backend/analytics/utils).

The Python code is shallowly embedded: stateful operations become pure
functions with explicit state arguments and explicit result records that
carry the number of network dispatches, budget checks, the post-call budget
file and the cache write performed.  Network I/O is abstracted as an oracle
mapping (request parameters, attempt index) to the outcome of that attempt.
Calendar dates are abstracted to natural day numbers (ISO date strings are
order-isomorphic to these), and float arithmetic is modelled with rationals.
-/

/-- One daily OHLCV bar, as produced by both provider clients
(columns Open, High, Low, Close, Volume, Adj Close).  The date is a day
number standing for the ISO date string. -/
structure Bar where
  Date : ℕ
  Open : ℚ
  High : ℚ
  Low : ℚ
  Close : ℚ
  Volume : ℤ
  AdjClose : ℚ
deriving DecidableEq

/-- A price series: the row-wise content of a pandas DataFrame of bars. -/
abbrev Series := List Bar

/-- The numeric fields of one entry of the Alpha Vantage
Time Series (Daily) JSON object (values 1. open .. 5. volume). -/
structure RawValues where
  rOpen : ℚ
  rHigh : ℚ
  rLow : ℚ
  rClose : ℚ
  rVolume : ℚ
deriving DecidableEq

/-- A parsed Alpha Vantage response body: the items of the
Time Series (Daily) JSON object in iteration order. -/
abbrev AVRaw := List (ℕ × RawValues)

/-- A cache file on disk: either it parses to a series or it is corrupt
(any read raises and is caught). -/
inductive CacheFile where
  | readable (s : Series)
  | corrupt
deriving DecidableEq

/-- Date of the last data point of a series
(data[-1].Date in the source; 0 for the empty series, which the source
guards against before reading). -/
def lastBarDate (s : Series) : ℕ :=
  match s.getLast? with
  | some b => b.Date
  | none => 0

/-- AlphaVantageClient._has_yesterdays_data (alphavantage_client.py 78-107):
true iff the most recent cache file for the ticker parses, holds a nonempty
series, and its last data point is from yesterday or later.  A read error
or missing file yields false. -/
def hasYesterdaysData (today : ℕ) (cacheFile : Option CacheFile) : Bool :=
  match cacheFile with
  | some (.readable s) => !s.isEmpty && decide (today - 1 ≤ lastBarDate s)
  | _ => false

/-- The on-disk daily budget counter file api_budget_DATE.json: missing,
unparseable, or holding a calls_used integer. -/
inductive BudgetFile where
  | absent
  | corrupt
  | readable (callsUsed : ℤ)
deriving DecidableEq

/-- AlphaVantageClient._check_api_budget (alphavantage_client.py 109-122):
calls_used < 25 when the file parses; true when the file is missing or
cannot be read. -/
def check_api_budget : BudgetFile → Bool
  | .absent => true
  | .corrupt => true
  | .readable n => decide (n < 25)

/-- AlphaVantageClient._increment_api_budget (alphavantage_client.py
124-140): adds 1 to the parsed counter; a missing or unreadable file is
rewritten with calls_used = 1. -/
def increment_api_budget : BudgetFile → BudgetFile
  | .readable n => .readable (n + 1)
  | _ => .readable 1

/-- The calls_used value an observer reads from the file, with a missing or
unreadable file read as 0 (as get_daily_budget_status does). -/
def readCalls : BudgetFile → ℤ
  | .readable n => n
  | _ => 0

/-- The two operations the budget tracker exposes. -/
inductive BudgetOp where
  | check
  | increment
deriving DecidableEq

/-- Effect of one budget operation on the counter file: a check never
writes, an increment rewrites the file. -/
def applyBudgetOp (b : BudgetFile) : BudgetOp → BudgetFile
  | .check => b
  | .increment => increment_api_budget b

/-- Effect of a sequence of budget operations, applied left to right. -/
def applyBudgetOps (b : BudgetFile) : List BudgetOp → BudgetFile
  | [] => b
  | op :: ops => applyBudgetOps (applyBudgetOp b op) ops

/-- The usage record returned by get_daily_budget_status
(api_budget_tracker.py 12-47), minus the two timestamp strings. -/
structure BudgetStatus where
  used : ℤ
  limit : ℤ
  remaining : ℤ
deriving DecidableEq

/-- get_daily_budget_status (api_budget_tracker.py 12-47): reads the daily
counter file inside a catch-all, so an unreadable file counts as 0 calls
used and the function always returns a record instead of raising. -/
def get_daily_budget_status (b : BudgetFile) : BudgetStatus :=
  let callsUsed : ℤ :=
    match b with
    | .readable n => n
    | _ => 0
  { used := callsUsed, limit := 25, remaining := max 0 (25 - callsUsed) }

/-- Errors that can escape a fetch.  The code only ever raises raw provider
errors (Python ValueError and friends), modelled as providerError tagged
with the provider that raised it.  The allSourcesExhausted constructor is
modelled from the spec (section 7 names an AllSourcesExhaustedError); it is
included so the spec claim about it can be stated, and no function of this
embedding produces it. -/
inductive MDErr where
  | providerError (provider : String) (msg : String)
  | allSourcesExhausted
deriving DecidableEq

/-- Outcome of a fetch call: a returned series or a raised error. -/
inductive FetchOutcome where
  | ok (s : Series)
  | err (e : MDErr)
deriving DecidableEq

/-- True iff the outcome is an error raised by the Yahoo Finance client. -/
def isYahooProviderError : FetchOutcome → Bool
  | .err (.providerError p _) => p == "yahoo"
  | _ => false

/-- Comparison used to sort Alpha Vantage records: by date
(records.sort keyed on the Date field, alphavantage_client.py 342). -/
def barLE (a b : Bar) : Prop := a.Date ≤ b.Date

instance : DecidableRel barLE := fun a b => Nat.decLe a.Date b.Date

instance : IsTotal Bar barLE := ⟨fun a b => Nat.le_total a.Date b.Date⟩

instance : IsTrans Bar barLE := ⟨fun _ _ _ hab hbc => Nat.le_trans hab hbc⟩

/-- One record built from a Time Series (Daily) item
(alphavantage_client.py 327-339): volume is truncated to an integer as
Python int() does, and the close doubles as the adjusted close on the free
tier. -/
def avRecord (date : ℕ) (v : RawValues) : Bar :=
  { Date := date, Open := v.rOpen, High := v.rHigh, Low := v.rLow,
    Close := v.rClose, Volume := v.rVolume.num / (v.rVolume.den : ℤ),
    AdjClose := v.rClose }

/-- Conversion of an Alpha Vantage response into the returned DataFrame
rows (alphavantage_client.py 326-349): build one record per item, then
sort by date, oldest first. -/
def avBuildSeries (items : AVRaw) : Series :=
  List.insertionSort barLE (items.map fun p => avRecord p.1 p.2)

/-- AlphaVantageClient._period_to_outputsize (alphavantage_client.py
180-185). -/
def period_to_outputsize (period : String) : String :=
  if period = "5y" ∨ period = "10y" ∨ period = "max" then "full" else "compact"

/-- Result of one AlphaVantageClient.fetch_ticker call: the outcome, the
number of HTTP requests dispatched, the number of budget-file checks, the
budget file after the call, and the series written to the provider cache
(none when nothing was written). -/
structure AVResult where
  res : FetchOutcome
  netCalls : ℕ
  budgetChecks : ℕ
  budget : BudgetFile
  cacheWrite : Option Series
deriving DecidableEq

/-- The live part of AlphaVantageClient.fetch_ticker (alphavantage_client.py
246-382), entered when the cache check is skipped or misses: gate on the
daily budget (falling back to the most recent cache file when allow_stale
and it reads, else raising), then up to max_retries = 2 attempts against
the network oracle; every failed attempt is retried while attempts remain;
a success writes the provider cache and increments the budget counter. -/
def avFetchLive (period : String) (allowStale : Bool)
    (cacheFile : Option CacheFile) (budget : BudgetFile)
    (net : String → ℕ → Except String AVRaw) : AVResult :=
  if !check_api_budget budget then
    match allowStale, cacheFile with
    | true, some (.readable s) =>
        { res := .ok s, netCalls := 0, budgetChecks := 1, budget := budget,
          cacheWrite := none }
    | _, _ =>
        { res := .err (.providerError "alphavantage"
            "API budget exhausted and no stale cache available"),
          netCalls := 0, budgetChecks := 1, budget := budget,
          cacheWrite := none }
  else
    let outputsize := period_to_outputsize period
    match net outputsize 0 with
    | .ok raw =>
        let s := avBuildSeries raw
        { res := .ok s, netCalls := 1, budgetChecks := 1,
          budget := increment_api_budget budget, cacheWrite := some s }
    | .error _ =>
        match net outputsize 1 with
        | .ok raw =>
            let s := avBuildSeries raw
            { res := .ok s, netCalls := 2, budgetChecks := 1,
              budget := increment_api_budget budget, cacheWrite := some s }
        | .error e2 =>
            { res := .err (.providerError "alphavantage"
                ("Failed to fetch from Alpha Vantage: " ++ e2)),
              netCalls := 2, budgetChecks := 1, budget := budget,
              cacheWrite := none }

/-- AlphaVantageClient.fetch_ticker (alphavantage_client.py 187-382): when
use_cache is set and the most recent cache file holds data through
yesterday, that series is returned with no network activity and no budget
check; otherwise (including a cache read error) control falls to the live
path. -/
def avFetchTicker (today : ℕ) (period : String) (useCache allowStale : Bool)
    (cacheFile : Option CacheFile) (budget : BudgetFile)
    (net : String → ℕ → Except String AVRaw) : AVResult :=
  if useCache && hasYesterdaysData today cacheFile then
    match cacheFile with
    | some (.readable s) =>
        { res := .ok s, netCalls := 0, budgetChecks := 0, budget := budget,
          cacheWrite := none }
    | _ => avFetchLive period allowStale cacheFile budget net
  else avFetchLive period allowStale cacheFile budget net

/-- Message classification of an exception caught in the Yahoo client retry
loop.  isRateLimited stands for the substring test for 429 or
Too Many Requests in the message, hasNoData for the substring test for
No data (yfinance_client.py 227 and 231). -/
structure NetErr where
  msg : String
  isRateLimited : Bool
  hasNoData : Bool
deriving DecidableEq

/-- Outcome of one yfinance history call: data, an empty DataFrame, or a
raised exception. -/
inductive YNet where
  | ok (s : Series)
  | empty
  | exn (e : NetErr)

/-- Result of one YFinanceClient.fetch_ticker call: the outcome, the number
of history calls dispatched, and the series written to the client cache. -/
structure YFResult where
  res : FetchOutcome
  netCalls : ℕ
  cacheWrite : Option Series
deriving DecidableEq

/-- YFinanceClient._is_cache_valid (yfinance_client.py 86-103): a missing
file is invalid; during market hours (9 <= hour <= 16) the age in hours
must be below min(ttl_hours, 1); outside them it must be below
ttl_hours. -/
def is_cache_valid (fileExists : Bool) (ageSeconds : ℚ) (ttlHours : ℕ)
    (currentHour : ℕ) : Bool :=
  if !fileExists then false
  else
    let ageHours : ℚ := ageSeconds / 3600
    let isMarketHours : Bool :=
      decide (9 ≤ currentHour) && decide (currentHour ≤ 16)
    if isMarketHours then decide (ageHours < min (ttlHours : ℚ) 1)
    else decide (ageHours < (ttlHours : ℚ))

/-- The exception the Yahoo client raises for an empty DataFrame on the
final attempt (yfinance_client.py 203); its message contains No data. -/
def noDataValueError : NetErr :=
  { msg := "No data returned for ticker", isRateLimited := false,
    hasNoData := true }

/-- The stale fallback at the end of the Yahoo retry loop
(yfinance_client.py 234-262): when allow_stale and the most recent cache
file for the ticker reads, its series is returned; otherwise the caught
exception is re-raised.  calls is the number of history calls already
made. -/
def yfStaleFallback (allowStale : Bool) (staleFile : Option CacheFile)
    (e : NetErr) (calls : ℕ) : YFResult :=
  match allowStale, staleFile with
  | true, some (.readable s) => { res := .ok s, netCalls := calls, cacheWrite := none }
  | _, _ =>
      { res := .err (.providerError "yahoo" e.msg), netCalls := calls,
        cacheWrite := none }

/-- The second (final) attempt of the Yahoo retry loop: an empty DataFrame
now raises the no-data ValueError, and any failure proceeds to the stale
fallback. -/
def yfSecondAttempt (period : String) (allowStale : Bool)
    (staleFile : Option CacheFile) (net : String → ℕ → YNet) : YFResult :=
  match net period 1 with
  | .ok s => { res := .ok s, netCalls := 2, cacheWrite := some s }
  | .empty => yfStaleFallback allowStale staleFile noDataValueError 2
  | .exn e => yfStaleFallback allowStale staleFile e 2

/-- The except branch of the first Yahoo attempt (yfinance_client.py
225-232): a rate-limited exception is retried after a backoff, an
exception whose message does not contain No data is retried, and a
no-data exception falls straight to the stale fallback. -/
def yfHandleExn (period : String) (allowStale : Bool)
    (staleFile : Option CacheFile) (net : String → ℕ → YNet)
    (e : NetErr) : YFResult :=
  if e.isRateLimited then yfSecondAttempt period allowStale staleFile net
  else if !e.hasNoData then yfSecondAttempt period allowStale staleFile net
  else yfStaleFallback allowStale staleFile e 1

/-- The live part of YFinanceClient.fetch_ticker (yfinance_client.py
184-262) with max_retries = 2: an empty DataFrame on the first attempt is
retried; an exception is handled as in the except branch. -/
def yfLive (period : String) (allowStale : Bool)
    (staleFile : Option CacheFile) (net : String → ℕ → YNet) : YFResult :=
  match net period 0 with
  | .ok s => { res := .ok s, netCalls := 1, cacheWrite := some s }
  | .empty => yfSecondAttempt period allowStale staleFile net
  | .exn e => yfHandleExn period allowStale staleFile net e

/-- YFinanceClient.fetch_ticker (yfinance_client.py 137-262): when
use_cache is set and the cache file keyed by (ticker, today) passes
_is_cache_valid and parses, its series is returned with no history call;
a parse failure falls through to the live path.  staleFile is the
mtime-latest cache file for the ticker, used only by the stale
fallback. -/
def yfFetchTicker (period : String) (useCache allowStale : Bool)
    (ttlHours currentHour : ℕ) (todayFile : Option CacheFile)
    (ageSeconds : ℚ) (staleFile : Option CacheFile)
    (net : String → ℕ → YNet) : YFResult :=
  if useCache && is_cache_valid todayFile.isSome ageSeconds ttlHours currentHour then
    match todayFile with
    | some (.readable s) => { res := .ok s, netCalls := 0, cacheWrite := none }
    | _ => yfLive period allowStale staleFile net
  else yfLive period allowStale staleFile net

/-- The whole on-disk and network environment one orchestrator fetch runs
in, for a fixed ticker: the Alpha Vantage cache file and budget file, the
Yahoo cache files with the age of the daily one, and the two network
oracles.  hour is the current local hour, today the current day. -/
structure World where
  today : ℕ
  hour : ℕ
  avCacheFile : Option CacheFile
  avBudget : BudgetFile
  avNet : String → ℕ → Except String AVRaw
  yfTodayFile : Option CacheFile
  yfAgeSeconds : ℚ
  yfStaleFile : Option CacheFile
  yfNet : String → ℕ → YNet

/-- Result of one MarketDataManager.fetch_ticker call: the outcome, the
number of Alpha Vantage HTTP requests, the number of Yahoo history calls,
and the number of Alpha Vantage budget-file checks. -/
structure MDMResult where
  res : FetchOutcome
  avCalls : ℕ
  yfCalls : ℕ
  budgetChecks : ℕ
deriving DecidableEq

/-- Step 4 of MarketDataManager.fetch_ticker (market_data_manager.py
53-59): after the last-resort Alpha Vantage cache read, return its series
on success and otherwise re-raise the Yahoo error (the Alpha Vantage error
would only be re-raised had Yahoo never raised, which cannot happen once
this step runs). -/
def mdmLastResort (avR : AVResult) (yfR : YFResult) (yErr : MDErr)
    (avR2 : AVResult) : MDMResult :=
  match avR2.res with
  | .ok s =>
      { res := .ok s, avCalls := avR.netCalls + avR2.netCalls,
        yfCalls := yfR.netCalls,
        budgetChecks := avR.budgetChecks + avR2.budgetChecks }
  | .err _ =>
      { res := .err yErr, avCalls := avR.netCalls + avR2.netCalls,
        yfCalls := yfR.netCalls,
        budgetChecks := avR.budgetChecks + avR2.budgetChecks }

/-- Step 3 of MarketDataManager.fetch_ticker (market_data_manager.py
45-51): on a Yahoo success return its data, otherwise run the last-resort
Alpha Vantage call with use_cache and allow_stale both set, on the budget
file as the primary attempt left it. -/
def mdmSecondary (w : World) (period : String) (avR : AVResult)
    (yfR : YFResult) : MDMResult :=
  match yfR.res with
  | .ok s =>
      { res := .ok s, avCalls := avR.netCalls, yfCalls := yfR.netCalls,
        budgetChecks := avR.budgetChecks }
  | .err yErr =>
      mdmLastResort avR yfR yErr
        (avFetchTicker w.today period true true w.avCacheFile avR.budget w.avNet)

/-- Step 2 of MarketDataManager.fetch_ticker (market_data_manager.py
37-43): on an Alpha Vantage success return its data, otherwise fall back
to Yahoo Finance with the caller kwargs. -/
def mdmPrimary (w : World) (period : String) (useCache allowStale : Bool)
    (ttl : ℕ) (avR : AVResult) : MDMResult :=
  match avR.res with
  | .ok s =>
      { res := .ok s, avCalls := avR.netCalls, yfCalls := 0,
        budgetChecks := avR.budgetChecks }
  | .err _ =>
      mdmSecondary w period avR
        (yfFetchTicker period useCache allowStale ttl w.hour w.yfTodayFile
          w.yfAgeSeconds w.yfStaleFile w.yfNet)

/-- MarketDataManager.fetch_ticker (market_data_manager.py 20-59): the VIX
ticker goes straight to the Yahoo client; every other ticker first runs
Alpha Vantage with use_cache hard-coded to False (and allow_stale at its
default True), then Yahoo, then the Alpha Vantage cache as a last resort.
useCache, allowStale and ttl are the kwargs forwarded to the Yahoo client;
their Python defaults are true, true and 24. -/
def mdmFetchTicker (w : World) (ticker period : String)
    (useCache allowStale : Bool) (ttl : ℕ) : MDMResult :=
  if ticker = "^VIX" then
    let r := yfFetchTicker period useCache allowStale ttl w.hour
      w.yfTodayFile w.yfAgeSeconds w.yfStaleFile w.yfNet
    { res := r.res, avCalls := 0, yfCalls := r.netCalls, budgetChecks := 0 }
  else
    mdmPrimary w period useCache allowStale ttl
      (avFetchTicker w.today period false true w.avCacheFile w.avBudget w.avNet)

/-- The serialized cache payload both clients write
(alphavantage_client.py 355-368, yfinance_client.py 209-217): ticker,
requested period and the row-wise series.  The interval field is the
constant 1d and is omitted. -/
structure CacheData where
  ticker : String
  period : String
  data : Series
deriving DecidableEq

/-- AlphaVantageClient._get_cache_path and YFinanceClient._get_cache_path
(alphavantage_client.py 73-76, yfinance_client.py 80-84): strip the caret,
replace slashes, and key the file by ticker and date. -/
def get_cache_path (ticker date : String) : String :=
  (ticker.replace "^" "").replace "/" "_" ++ "_" ++ date ++ ".json"

/-- A cache directory as a list of (file name, parsed content) pairs. -/
abbrev CacheDir := List (String × CacheData)

/-- Opening a path with mode w and dumping JSON: the new content fully
replaces whatever the directory held under that name. -/
def fsWrite (fs : CacheDir) (name : String) (c : CacheData) : CacheDir :=
  (name, c) :: fs.filter fun p => !(p.1 == name)

/-- The cache put both clients perform on a successful fetch
(alphavantage_client.py 352-371, yfinance_client.py 208-220): write the
payload to the file keyed by (ticker, day). -/
def cache_put (fs : CacheDir) (ticker date : String) (c : CacheData) : CacheDir :=
  fsWrite fs (get_cache_path ticker date) c

/-- The dates of a series are strictly increasing and pairwise distinct. -/
def datesStrictMonoNodup (l : Series) : Prop :=
  List.Pairwise (fun a b => a < b) (l.map Bar.Date) ∧ (l.map Bar.Date).Nodup

/-- A day of orchestration seen by the Alpha Vantage client alone: k
successive fetch_ticker calls with use_cache false and no cache files,
threading the budget file through, totalling the HTTP requests
dispatched. -/
def avRunFetches (today : ℕ) (net : String → ℕ → Except String AVRaw) :
    ℕ → BudgetFile → ℕ × BudgetFile
  | 0, b => (0, b)
  | Nat.succ k, b =>
      let r := avFetchTicker today "1y" false true none b net
      let p := avRunFetches today net k r.budget
      (r.netCalls + p.1, p.2)

/-- A network day where every first attempt times out and every second
attempt succeeds with one bar. -/
def netFailThenOk : String → ℕ → Except String AVRaw := fun _ i =>
  if i = 0 then .error "timeout" else .ok [(1, ⟨1, 1, 1, 1, 1⟩)]

/-- A one-bar series whose last date is day 9 (fresh when today is 10). -/
def freshSeries : Series := [⟨9, 2, 2, 2, 2, 5, 2⟩]

/-- A one-bar raw Alpha Vantage payload dated day 5. -/
def rawSample : AVRaw := [(5, ⟨1, 2, 0, 1, 100⟩)]

/-- A one-bar series whose last date is day 4 (stale when today is 10). -/
def staleSeries : Series := [⟨4, 1, 1, 1, 1, 10, 1⟩]

/-- A one-bar series whose last date is day 7 (stale when today is 10). -/
def oldSeries : Series := [⟨7, 1, 1, 1, 1, 10, 1⟩]

/-- A one-bar series standing for data Yahoo would return. -/
def yahooFresh : Series := [⟨9, 3, 3, 3, 3, 7, 3⟩]

/-- A one-bar series cached for the VIX ticker. -/
def vixSeries : Series := [⟨9, 1, 1, 1, 1, 10, 1⟩]

/-- World for the C1 counterexample: a fresh Alpha Vantage cache entry
exists, the budget is fresh, and the first network attempt succeeds with
different data. -/
def wc1 : World :=
  { today := 10, hour := 12, avCacheFile := some (.readable freshSeries),
    avBudget := .absent, avNet := fun _ _ => .ok rawSample,
    yfTodayFile := none, yfAgeSeconds := 0, yfStaleFile := none,
    yfNet := fun _ _ => .empty }

/-- World for the C2 counterexample: the budget counter is at its limit, a
stale Alpha Vantage cache entry exists, and Yahoo would succeed with
different data. -/
def wc2 : World :=
  { today := 10, hour := 12, avCacheFile := some (.readable staleSeries),
    avBudget := .readable 25, avNet := fun _ _ => .ok rawSample,
    yfTodayFile := none, yfAgeSeconds := 0, yfStaleFile := none,
    yfNet := fun _ _ => .ok yahooFresh }

/-- World for the C3 counterexample: budget available, an Alpha Vantage
cache entry from day 7 exists, today is day 10, and both networks fail on
every attempt. -/
def wc3 : World :=
  { today := 10, hour := 12, avCacheFile := some (.readable oldSeries),
    avBudget := .readable 0, avNet := fun _ _ => .error "connection timeout",
    yfTodayFile := none, yfAgeSeconds := 0, yfStaleFile := none,
    yfNet := fun _ _ => .exn ⟨"connection reset", false, false⟩ }

/-- World for the C7 counterexample: a ten-minute-old Yahoo cache file for
the VIX ticker exists at 10 in the morning, and the network would
succeed. -/
def wc7 : World :=
  { today := 10, hour := 10, avCacheFile := none, avBudget := .absent,
    avNet := fun _ _ => .error "unreachable",
    yfTodayFile := some (.readable vixSeries), yfAgeSeconds := 600,
    yfStaleFile := some (.readable vixSeries),
    yfNet := fun _ _ => .ok vixSeries }

/-- A Yahoo network day that returns an empty DataFrame first and data on
the retry. -/
def netEmptyThenOk : String → ℕ → YNet := fun _ i =>
  if i = 0 then .empty else .ok yahooFresh

/-- A three-item raw payload with distinct, unsorted dates. -/
def itemsSample : AVRaw :=
  [(3, ⟨1, 1, 1, 1, 1⟩), (1, ⟨2, 2, 2, 2, 2⟩), (2, ⟨3, 3, 3, 3, 3⟩)]

/-- An exception whose message contains No data and no rate-limit
marker. -/
def noDataNetErr : NetErr :=
  { msg := "No data found for ticker", isRateLimited := false,
    hasNoData := true }

/-- A Yahoo network that always raises the no-data exception. -/
def netNoData : String → ℕ → YNet := fun _ _ => .exn noDataNetErr

/-- World used to exercise the amended stale-floor statement: a fresh
Alpha Vantage cache entry exists while both networks fail on every
attempt. -/
def wAm3 : World :=
  { today := 10, hour := 12, avCacheFile := some (.readable freshSeries),
    avBudget := .readable 3, avNet := fun _ _ => .error "connection timeout",
    yfTodayFile := none, yfAgeSeconds := 0, yfStaleFile := none,
    yfNet := fun _ _ => .exn ⟨"connection reset", false, false⟩ }

theorem avFetchTicker_no_cache (today : ℕ) (period : String) (aS : Bool)
    (cf : Option CacheFile) (budget : BudgetFile)
    (net : String → ℕ → Except String AVRaw) :
    avFetchTicker today period false aS cf budget net =
      avFetchLive period aS cf budget net := rfl

theorem avFetchTicker_none_cache (today : ℕ) (period : String)
    (u aS : Bool) (budget : BudgetFile)
    (net : String → ℕ → Except String AVRaw) :
    avFetchTicker today period u aS none budget net =
      avFetchLive period aS none budget net := by
  cases u <;> rfl

theorem avFetchTicker_corrupt_cache (today : ℕ) (period : String)
    (u aS : Bool) (budget : BudgetFile)
    (net : String → ℕ → Except String AVRaw) :
    avFetchTicker today period u aS (some .corrupt) budget net =
      avFetchLive period aS (some .corrupt) budget net := by
  cases u <;> rfl

theorem avFetchTicker_cache_hit (today : ℕ) (period : String) (aS : Bool)
    (s : Series) (budget : BudgetFile)
    (net : String → ℕ → Except String AVRaw)
    (hs : s.isEmpty = false) (hd : today - 1 ≤ lastBarDate s) :
    avFetchTicker today period true aS (some (.readable s)) budget net =
      { res := .ok s, netCalls := 0, budgetChecks := 0, budget := budget,
        cacheWrite := none } := by
  have hy : hasYesterdaysData today (some (.readable s)) = true := by
    simp [hasYesterdaysData, hs, hd]
  unfold avFetchTicker
  rw [hy]
  rfl

theorem avFetchLive_budget_blocked_readable (period : String) (s : Series)
    (budget : BudgetFile) (net : String → ℕ → Except String AVRaw)
    (hc : check_api_budget budget = false) :
    avFetchLive period true (some (.readable s)) budget net =
      { res := .ok s, netCalls := 0, budgetChecks := 1, budget := budget,
        cacheWrite := none } := by
  unfold avFetchLive
  rw [hc]
  rfl

theorem avFetchLive_budget_blocked_none (period : String) (aS : Bool)
    (budget : BudgetFile) (net : String → ℕ → Except String AVRaw)
    (hc : check_api_budget budget = false) :
    avFetchLive period aS none budget net =
      { res := .err (.providerError "alphavantage"
          "API budget exhausted and no stale cache available"),
        netCalls := 0, budgetChecks := 1, budget := budget,
        cacheWrite := none } := by
  unfold avFetchLive
  rw [hc]
  cases aS <;> rfl

theorem avFetchLive_budget_blocked_corrupt (period : String) (aS : Bool)
    (budget : BudgetFile) (net : String → ℕ → Except String AVRaw)
    (hc : check_api_budget budget = false) :
    avFetchLive period aS (some .corrupt) budget net =
      { res := .err (.providerError "alphavantage"
          "API budget exhausted and no stale cache available"),
        netCalls := 0, budgetChecks := 1, budget := budget,
        cacheWrite := none } := by
  unfold avFetchLive
  rw [hc]
  cases aS <;> rfl

theorem avFetchLive_net_errors (period : String) (aS : Bool)
    (cf : Option CacheFile) (budget : BudgetFile)
    (net : String → ℕ → Except String AVRaw) (m0 m1 : String)
    (hb : check_api_budget budget = true)
    (h0 : net (period_to_outputsize period) 0 = .error m0)
    (h1 : net (period_to_outputsize period) 1 = .error m1) :
    avFetchLive period aS cf budget net =
      { res := .err (.providerError "alphavantage"
          ("Failed to fetch from Alpha Vantage: " ++ m1)),
        netCalls := 2, budgetChecks := 1, budget := budget,
        cacheWrite := none } := by
  unfold avFetchLive
  rw [hb]
  simp only [Bool.not_true, Bool.false_eq_true, if_false, h0, h1]

theorem yfStaleFallback_none (aS : Bool) (e : NetErr) (k : ℕ) :
    yfStaleFallback aS none e k =
      { res := .err (.providerError "yahoo" e.msg), netCalls := k,
        cacheWrite := none } := by
  cases aS <;> rfl

theorem yfStaleFallback_netCalls (aS : Bool) (sf : Option CacheFile)
    (e : NetErr) (k : ℕ) : (yfStaleFallback aS sf e k).netCalls = k := by
  unfold yfStaleFallback
  cases aS <;> rcases sf with - | c
  · rfl
  · cases c <;> rfl
  · rfl
  · cases c <;> rfl

theorem yfSecondAttempt_netCalls (period : String) (aS : Bool)
    (sf : Option CacheFile) (net : String → ℕ → YNet) :
    (yfSecondAttempt period aS sf net).netCalls = 2 := by
  unfold yfSecondAttempt
  cases hn : net period 1 with
  | ok s => rfl
  | empty => exact yfStaleFallback_netCalls ..
  | exn e => exact yfStaleFallback_netCalls ..

theorem yfHandleExn_netCalls_pos (period : String) (aS : Bool)
    (sf : Option CacheFile) (net : String → ℕ → YNet) (e : NetErr) :
    1 ≤ (yfHandleExn period aS sf net e).netCalls := by
  unfold yfHandleExn
  by_cases hr : e.isRateLimited = true
  · rw [if_pos hr, yfSecondAttempt_netCalls]; omega
  · rw [if_neg hr]
    by_cases hd : (!e.hasNoData) = true
    · rw [if_pos hd, yfSecondAttempt_netCalls]; omega
    · rw [if_neg hd, yfStaleFallback_netCalls]

theorem yfLive_netCalls_pos (period : String) (aS : Bool)
    (sf : Option CacheFile) (net : String → ℕ → YNet) :
    1 ≤ (yfLive period aS sf net).netCalls := by
  unfold yfLive
  cases hn : net period 0 with
  | ok s => exact Nat.le_refl 1
  | empty =>
      show 1 ≤ (yfSecondAttempt period aS sf net).netCalls
      rw [yfSecondAttempt_netCalls]; omega
  | exn e => exact yfHandleExn_netCalls_pos period aS sf net e

theorem yfFetchTicker_no_today_file (period : String) (u aS : Bool)
    (ttl hour : ℕ) (age : ℚ) (sf : Option CacheFile)
    (net : String → ℕ → YNet) :
    yfFetchTicker period u aS ttl hour none age sf net =
      yfLive period aS sf net := by
  unfold yfFetchTicker
  have hv : is_cache_valid (none : Option CacheFile).isSome age ttl hour = false := rfl
  rw [hv, Bool.and_false]
  rfl

theorem yfSecondAttempt_exn_res (period : String) (aS : Bool)
    (sf : Option CacheFile) (net : String → ℕ → YNet) (e1 : NetErr)
    (h1 : net period 1 = .exn e1) :
    (yfSecondAttempt period aS sf net).res = (yfStaleFallback aS sf e1 2).res := by
  unfold yfSecondAttempt
  rw [h1]

theorem yfFetchTicker_both_exn (period : String) (u aS : Bool)
    (ttl hour : ℕ) (age : ℚ) (net : String → ℕ → YNet) (e0 e1 : NetErr)
    (h0 : net period 0 = .exn e0) (h1 : net period 1 = .exn e1) :
    ∃ mm, (yfFetchTicker period u aS ttl hour none age none net).res =
      .err (.providerError "yahoo" mm) := by
  rw [yfFetchTicker_no_today_file]
  unfold yfLive
  rw [h0]
  show ∃ mm, (yfHandleExn period aS none net e0).res =
    .err (.providerError "yahoo" mm)
  unfold yfHandleExn
  by_cases hr : e0.isRateLimited = true
  · rw [if_pos hr, yfSecondAttempt_exn_res period aS none net e1 h1,
      yfStaleFallback_none]
    exact ⟨e1.msg, rfl⟩
  · rw [if_neg hr]
    by_cases hd : (!e0.hasNoData) = true
    · rw [if_pos hd, yfSecondAttempt_exn_res period aS none net e1 h1,
        yfStaleFallback_none]
      exact ⟨e1.msg, rfl⟩
    · rw [if_neg hd, yfStaleFallback_none]
      exact ⟨e0.msg, rfl⟩

theorem mdm_budget_blocked_readable (w : World) (ticker period : String)
    (u aS : Bool) (ttl : ℕ) (s : Series)
    (hT : ticker ≠ "^VIX") (hc : check_api_budget w.avBudget = false)
    (hcf : w.avCacheFile = some (.readable s)) :
    mdmFetchTicker w ticker period u aS ttl =
      { res := .ok s, avCalls := 0, yfCalls := 0, budgetChecks := 1 } := by
  unfold mdmFetchTicker
  rw [if_neg hT, avFetchTicker_no_cache, hcf,
    avFetchLive_budget_blocked_readable period s w.avBudget w.avNet hc]
  rfl

theorem mdm_budget_blocked_noread (w : World) (ticker period : String)
    (u aS : Bool) (ttl : ℕ)
    (hT : ticker ≠ "^VIX") (hc : check_api_budget w.avBudget = false)
    (hcf : w.avCacheFile = none ∨ w.avCacheFile = some .corrupt) :
    (mdmFetchTicker w ticker period u aS ttl).avCalls = 0 ∧
    (mdmFetchTicker w ticker period u aS ttl).res =
      (yfFetchTicker period u aS ttl w.hour w.yfTodayFile w.yfAgeSeconds
        w.yfStaleFile w.yfNet).res ∧
    (mdmFetchTicker w ticker period u aS ttl).yfCalls =
      (yfFetchTicker period u aS ttl w.hour w.yfTodayFile w.yfAgeSeconds
        w.yfStaleFile w.yfNet).netCalls := by
  have hstep2 : avFetchTicker w.today period false true w.avCacheFile
      w.avBudget w.avNet =
      { res := .err (.providerError "alphavantage"
          "API budget exhausted and no stale cache available"),
        netCalls := 0, budgetChecks := 1, budget := w.avBudget,
        cacheWrite := none } := by
    rw [avFetchTicker_no_cache]
    rcases hcf with h | h <;> rw [h]
    · exact avFetchLive_budget_blocked_none period true w.avBudget w.avNet hc
    · exact avFetchLive_budget_blocked_corrupt period true w.avBudget w.avNet hc
  have hstep4 : avFetchTicker w.today period true true w.avCacheFile
      w.avBudget w.avNet =
      { res := .err (.providerError "alphavantage"
          "API budget exhausted and no stale cache available"),
        netCalls := 0, budgetChecks := 1, budget := w.avBudget,
        cacheWrite := none } := by
    rcases hcf with h | h <;> rw [h]
    · rw [avFetchTicker_none_cache]
      exact avFetchLive_budget_blocked_none period true w.avBudget w.avNet hc
    · rw [avFetchTicker_corrupt_cache]
      exact avFetchLive_budget_blocked_corrupt period true w.avBudget w.avNet hc
  unfold mdmFetchTicker
  rw [if_neg hT, hstep2]
  unfold mdmPrimary
  cases hy : (yfFetchTicker period u aS ttl w.hour w.yfTodayFile
      w.yfAgeSeconds w.yfStaleFile w.yfNet).res with
  | ok s =>
      unfold mdmSecondary
      rw [hy]
      exact ⟨rfl, rfl, rfl⟩
  | err yErr =>
      unfold mdmSecondary
      rw [hy, hstep4]
      unfold mdmLastResort
      exact ⟨rfl, rfl, rfl⟩

theorem readCalls_applyBudgetOp_mono (b : BudgetFile) (op : BudgetOp) :
    readCalls b ≤ readCalls (applyBudgetOp b op) := by
  cases op with
  | check => exact le_refl _
  | increment =>
      cases b <;>
        simp only [applyBudgetOp, increment_api_budget, readCalls] <;> omega

theorem readCalls_applyBudgetOps_mono (ops : List BudgetOp) (b : BudgetFile) :
    readCalls b ≤ readCalls (applyBudgetOps b ops) := by
  induction ops generalizing b with
  | nil => exact le_refl _
  | cons op ops ih =>
      exact le_trans (readCalls_applyBudgetOp_mono b op) (ih (applyBudgetOp b op))

theorem check_api_budget_at_limit (n : ℤ) (hN : 25 ≤ n) :
    check_api_budget (.readable n) = false := by
  simp only [check_api_budget, decide_eq_false_iff_not]
  omega

theorem avFetchLive_blocked_netCalls (period : String) (aS : Bool)
    (cf : Option CacheFile) (budget : BudgetFile)
    (net : String → ℕ → Except String AVRaw)
    (hc : check_api_budget budget = false) :
    (avFetchLive period aS cf budget net).netCalls = 0 := by
  unfold avFetchLive
  rw [hc]
  cases aS <;> rcases cf with - | c
  · rfl
  · cases c <;> rfl
  · rfl
  · cases c <;> rfl

theorem avFetchTicker_budget_gate (today : ℕ) (period : String)
    (u aS : Bool) (cf : Option CacheFile)
    (net : String → ℕ → Except String AVRaw) (n : ℤ) (hN : 25 ≤ n) :
    (avFetchTicker today period u aS cf (.readable n) net).netCalls = 0 := by
  have hc := check_api_budget_at_limit n hN
  unfold avFetchTicker
  cases hcond : (u && hasYesterdaysData today cf)
  · exact avFetchLive_blocked_netCalls period aS cf (.readable n) net hc
  · rcases cf with - | c
    · exact avFetchLive_blocked_netCalls period aS none (.readable n) net hc
    · cases c with
      | readable s => rfl
      | corrupt =>
          exact avFetchLive_blocked_netCalls period aS (some .corrupt)
            (.readable n) net hc

theorem pairwise_lt_of_le_nodup (l : List ℕ)
    (hle : l.Pairwise fun a b => a ≤ b) (hnd : l.Nodup) :
    l.Pairwise fun a b => a < b := by
  induction l with
  | nil => exact List.Pairwise.nil
  | cons a t ih =>
      rw [List.pairwise_cons] at hle ⊢
      rw [List.nodup_cons] at hnd
      refine ⟨fun b hb => lt_of_le_of_ne (hle.1 b hb) ?_, ih hle.2 hnd.2⟩
      intro heq
      exact hnd.1 (by rw [heq]; exact hb)

theorem filter_eq_of_filter_ne (n : String) (l : CacheDir) :
    (l.filter fun p => !(p.1 == n)).filter (fun p => p.1 == n) = [] := by
  induction l with
  | nil => rfl
  | cons a t ih =>
      cases h : (a.1 == n)
      · simp [List.filter_cons, h, ih]
      · simp [List.filter_cons, h, ih]

/-- Claim C6: whenever the Yahoo freshness check _is_cache_valid returns
true during the active window (hour between 9 and 16) the entry age is at
most 1 hour, and whenever it returns true outside that window the age is
at most the configured TTL (the caller-overridable ttl_hours, default
24). -/
theorem cache_valid_age_bound (ex : Bool) (age : ℚ) (ttl hour : ℕ)
    (h : is_cache_valid ex age ttl hour = true) :
    (9 ≤ hour ∧ hour ≤ 16 → age / 3600 ≤ 1) ∧
    (¬(9 ≤ hour ∧ hour ≤ 16) → age / 3600 ≤ (ttl : ℚ)) := by
  cases ex with
  | false => simp [is_cache_valid] at h
  | true =>
      by_cases hm : 9 ≤ hour ∧ hour ≤ 16
      · simp only [is_cache_valid, Bool.not_true, Bool.false_eq_true,
          if_false, hm.1, hm.2, decide_True, Bool.and_self, if_true,
          decide_eq_true_eq] at h
        exact ⟨fun _ => le_of_lt (lt_of_lt_of_le h (min_le_right _ _)),
          fun hn => absurd hm hn⟩
      · have hb : (decide (9 ≤ hour) && decide (hour ≤ 16)) = false := by
          rcases Classical.em (9 ≤ hour) with h9 | h9
          · have h16 : ¬ hour ≤ 16 := fun h16 => hm ⟨h9, h16⟩
            simp [h16]
          · simp [h9]
        simp only [is_cache_valid, Bool.not_true, Bool.false_eq_true,
          if_false, hb, decide_eq_true_eq] at h
        exact ⟨fun hmk => absurd hmk hm, fun _ => le_of_lt h⟩

/-- Witness for C6 at hour 10 with a half-hour-old entry and the default
24 hour TTL. -/
theorem cache_valid_age_bound_witness :
    (9 ≤ 10 ∧ 10 ≤ 16 → (1800 : ℚ) / 3600 ≤ 1) ∧
    (¬(9 ≤ 10 ∧ 10 ≤ 16) → (1800 : ℚ) / 3600 ≤ ((24 : ℕ) : ℚ)) :=
  cache_valid_age_bound true 1800 24 10 (by norm_num [is_cache_valid])

/-- Claim C8: performing the cache put twice for the same symbol on the
same day leaves exactly one directory entry under that (symbol, day) key,
whose content is the whole second payload; the first payload is gone
entirely, never merged. -/
theorem cache_put_overwrites (fs : CacheDir) (ticker dateStr : String)
    (d1 d2 : CacheData) :
    (cache_put (cache_put fs ticker dateStr d1) ticker dateStr d2).filter
        (fun p => p.1 == get_cache_path ticker dateStr) =
      [(get_cache_path ticker dateStr, d2)] := by
  unfold cache_put fsWrite
  simp only [List.filter_cons, beq_self_eq_true, Bool.not_true,
    Bool.false_eq_true, if_false, if_true, filter_eq_of_filter_ne]

/-- Claim C9: the series produced from a successful Alpha Vantage response
has strictly increasing dates with no duplicates, given that the parsed
JSON object has pairwise distinct date keys (JSON object keys are unique
in a parsed Python dict). -/
theorem fetched_series_dates_strictly_increasing (items : AVRaw)
    (h : (items.map Prod.fst).Nodup) :
    datesStrictMonoNodup (avBuildSeries items) := by
  have hperm : List.Perm (avBuildSeries items)
      (items.map fun p => avRecord p.1 p.2) :=
    List.perm_insertionSort barLE _
  have hsorted : List.Sorted barLE (avBuildSeries items) :=
    List.sorted_insertionSort barLE _
  have hkeys : ((items.map fun p => avRecord p.1 p.2).map Bar.Date) =
      items.map Prod.fst := by
    simp [List.map_map, avRecord, Function.comp]
  have hmapperm : List.Perm ((avBuildSeries items).map Bar.Date)
      (items.map Prod.fst) := by
    rw [← hkeys]
    exact hperm.map Bar.Date
  have hnodup : ((avBuildSeries items).map Bar.Date).Nodup :=
    hmapperm.nodup_iff.mpr h
  have hpw_le : List.Pairwise (fun a b : ℕ => a ≤ b)
      ((avBuildSeries items).map Bar.Date) :=
    List.pairwise_map.mpr (hsorted.imp fun hab => hab)
  exact ⟨pairwise_lt_of_le_nodup _ hpw_le hnodup, hnodup⟩

/-- Witness for C9 on a concrete three-item payload with unsorted distinct
dates. -/
theorem fetched_series_dates_strictly_increasing_witness :
    datesStrictMonoNodup (avBuildSeries itemsSample) :=
  fetched_series_dates_strictly_increasing itemsSample (by decide)

/-- Claim C10: a budget counter file that exists but cannot be parsed makes
_check_api_budget return true (the gate fails open), and
get_daily_budget_status reads it as zero calls used with the full limit
remaining instead of raising; a missing file behaves the same way. -/
theorem corrupt_budget_fails_open :
    check_api_budget .corrupt = true ∧
    get_daily_budget_status .corrupt =
      { used := 0, limit := 25, remaining := 25 } ∧
    check_api_budget .absent = true ∧
    get_daily_budget_status .absent =
      { used := 0, limit := 25, remaining := 25 } :=
  ⟨rfl, rfl, rfl, rfl⟩

/-- Counterexample to claim C1: in world wc1 the cache holds a fresh entry
for the symbol (data through day 9 with today = 10, fresh under the Alpha
Vantage freshness rule), yet the orchestrator fetch dispatches one network
call to the primary provider and returns the network data instead of the
cached series, because it invokes the client with use_cache set to
False. -/
theorem orchestrator_live_fetch_despite_fresh_cache_cex :
    hasYesterdaysData wc1.today wc1.avCacheFile = true ∧
    (mdmFetchTicker wc1 "SPY" "1y" true true 24).avCalls = 1 ∧
    (mdmFetchTicker wc1 "SPY" "1y" true true 24).res ≠ .ok freshSeries := by
  refine ⟨rfl, rfl, ?_⟩
  decide

/-- Counterexample to claim C2: in world wc2 the primary budget counter is
at its limit of 25 and a stale primary cache entry exists; the
orchestrator returns that stale entry with zero Yahoo calls, so the
request is not attempted against the secondary provider even though it
would have succeeded. -/
theorem budget_exhausted_stale_cache_no_secondary_cex :
    mdmFetchTicker wc2 "SPY" "1y" true true 24 =
      { res := .ok staleSeries, avCalls := 0, yfCalls := 0,
        budgetChecks := 1 } := by
  rfl

/-- Counterexample to claim C3: in world wc3 both providers fail on every
attempt and a prior cache entry (oldSeries, three days old) exists, yet
the fetch with staleness permitted re-raises the raw Yahoo error instead
of returning the cached series, and the fetch with staleness refused
raises that same raw provider error, not an AllSourcesExhaustedError. -/
theorem stale_floor_cex :
    (mdmFetchTicker wc3 "SPY" "1y" true true 24).res =
      .err (.providerError "yahoo" "connection reset") ∧
    (mdmFetchTicker wc3 "SPY" "1y" true true 24).res ≠ .ok oldSeries ∧
    (mdmFetchTicker wc3 "SPY" "1y" true false 24).res =
      .err (.providerError "yahoo" "connection reset") ∧
    (mdmFetchTicker wc3 "SPY" "1y" true false 24).res ≠
      .err .allSourcesExhausted := by
  refine ⟨rfl, by decide, rfl, by decide⟩

/-- Counterexample to claim C4: a provider run where the first attempt
returns an empty result (the no-data case) and the Yahoo client retries
it: the call dispatches a second network attempt instead of escalating
with retry count zero. -/
theorem empty_response_retried_cex :
    yfFetchTicker "1y" false false 24 12 none 0 none netEmptyThenOk =
      { res := .ok yahooFresh, netCalls := 2, cacheWrite := some yahooFresh } := by
  rfl

/-- Counterexample to claim C5: thirteen orchestrated fetches on one day,
each passing the single budget check, then failing its first HTTP attempt
and succeeding on the retry, dispatch 26 network calls to the provider
while the counter only reaches 13 - the 25-call daily quota is exceeded
even though the gate never closed. -/
theorem daily_quota_exceeded_cex :
    (avRunFetches 10 netFailThenOk 13 .absent).1 = 26 ∧
    25 < (avRunFetches 10 netFailThenOk 13 .absent).1 ∧
    (avRunFetches 10 netFailThenOk 13 .absent).2 = .readable 13 := by
  refine ⟨rfl, by decide, rfl⟩

/-- Counterexample to claim C7: in world wc7 a ten-minute-old Yahoo cache
file for the VIX ticker exists; the orchestrator fetch is served from that
cache with zero fetch attempts, so the VIX path does not fetch fresh every
time. -/
theorem vix_served_from_cache_cex :
    mdmFetchTicker wc7 "^VIX" "1y" true true 24 =
      { res := .ok vixSeries, avCalls := 0, yfCalls := 0,
        budgetChecks := 0 } := by
  have hv : is_cache_valid (wc7.yfTodayFile).isSome wc7.yfAgeSeconds 24 wc7.hour
      = true := by
    norm_num [is_cache_valid, wc7]
  unfold mdmFetchTicker
  rw [if_pos rfl]
  unfold yfFetchTicker
  rw [hv]
  rfl

/-- Claim C1 (amended): the Alpha Vantage client itself, called with
use_cache set, returns a fresh cache entry (nonempty data through
yesterday) with zero network calls and zero budget checks; but the
orchestrator invokes that client with use_cache hard-coded to False, so an
orchestrator fetch for a non-VIX symbol performs a live network attempt
even when such a fresh entry exists (exactly one call when the first
attempt succeeds and the budget is open). -/
theorem av_client_fresh_cache_zero_network
    (today : ℕ) (period : String) (allowStale : Bool) (s : Series)
    (budget : BudgetFile) (net : String → ℕ → Except String AVRaw)
    (w : World) (ticker : String) (raw : AVRaw)
    (useCache2 allowStale2 : Bool) (ttl : ℕ)
    (hs : s.isEmpty = false) (hd : today - 1 ≤ lastBarDate s)
    (hT : ticker ≠ "^VIX") (hb : check_api_budget w.avBudget = true)
    (hnet : w.avNet (period_to_outputsize period) 0 = .ok raw) :
    avFetchTicker today period true allowStale (some (.readable s)) budget net =
      { res := .ok s, netCalls := 0, budgetChecks := 0, budget := budget,
        cacheWrite := none } ∧
    (mdmFetchTicker w ticker period useCache2 allowStale2 ttl).avCalls = 1 := by
  constructor
  · exact avFetchTicker_cache_hit today period allowStale s budget net hs hd
  · have hlive : avFetchLive period true w.avCacheFile w.avBudget w.avNet =
        { res := .ok (avBuildSeries raw), netCalls := 1, budgetChecks := 1,
          budget := increment_api_budget w.avBudget,
          cacheWrite := some (avBuildSeries raw) } := by
      unfold avFetchLive
      rw [hb]
      simp only [Bool.not_true, Bool.false_eq_true, if_false, hnet]
    unfold mdmFetchTicker
    rw [if_neg hT, avFetchTicker_no_cache, hlive]
    rfl

/-- Witness for the amended C1 in world wc1 with the fresh entry
freshSeries. -/
theorem av_client_fresh_cache_zero_network_witness :
    avFetchTicker 10 "1y" true true (some (.readable freshSeries)) .absent
        wc1.avNet =
      { res := .ok freshSeries, netCalls := 0, budgetChecks := 0,
        budget := .absent, cacheWrite := none } ∧
    (mdmFetchTicker wc1 "SPY" "1y" true true 24).avCalls = 1 :=
  av_client_fresh_cache_zero_network 10 "1y" true freshSeries .absent
    wc1.avNet wc1 "SPY" rawSample true true 24 rfl (by decide) (by decide)
    rfl rfl

/-- Claim C2 (amended): when the primary daily budget counter is at its
limit, an orchestrator fetch for a non-VIX symbol dispatches zero network
calls to the primary provider; but the secondary provider is only reached
when the primary has no readable cached entry - when one exists, its stale
series is returned with zero secondary calls.  With no primary cache
entry, the orchestrator outcome is exactly the Yahoo client outcome. -/
theorem budget_exhausted_primary_skipped
    (w : World) (ticker period : String) (useCache allowStale : Bool)
    (ttl : ℕ) (n : ℤ) (s : Series)
    (hT : ticker ≠ "^VIX") (hB : w.avBudget = .readable n) (hN : 25 ≤ n) :
    (mdmFetchTicker w ticker period useCache allowStale ttl).avCalls = 0 ∧
    (w.avCacheFile = some (.readable s) →
      (mdmFetchTicker w ticker period useCache allowStale ttl).res = .ok s ∧
      (mdmFetchTicker w ticker period useCache allowStale ttl).yfCalls = 0) ∧
    (w.avCacheFile = none →
      (mdmFetchTicker w ticker period useCache allowStale ttl).res =
        (yfFetchTicker period useCache allowStale ttl w.hour w.yfTodayFile
          w.yfAgeSeconds w.yfStaleFile w.yfNet).res ∧
      (mdmFetchTicker w ticker period useCache allowStale ttl).yfCalls =
        (yfFetchTicker period useCache allowStale ttl w.hour w.yfTodayFile
          w.yfAgeSeconds w.yfStaleFile w.yfNet).netCalls) := by
  have hc : check_api_budget w.avBudget = false := by
    rw [hB]
    exact check_api_budget_at_limit n hN
  refine ⟨?_, ?_, ?_⟩
  · rcases hcf : w.avCacheFile with - | c
    · exact (mdm_budget_blocked_noread w ticker period useCache allowStale
        ttl hT hc (Or.inl hcf)).1
    · cases c with
      | readable s' =>
          rw [mdm_budget_blocked_readable w ticker period useCache allowStale
            ttl s' hT hc hcf]
      | corrupt =>
          exact (mdm_budget_blocked_noread w ticker period useCache allowStale
            ttl hT hc (Or.inr hcf)).1
  · intro hcf
    rw [mdm_budget_blocked_readable w ticker period useCache allowStale
      ttl s hT hc hcf]
    exact ⟨rfl, rfl⟩
  · intro hcf
    exact ⟨(mdm_budget_blocked_noread w ticker period useCache allowStale
        ttl hT hc (Or.inl hcf)).2.1,
      (mdm_budget_blocked_noread w ticker period useCache allowStale
        ttl hT hc (Or.inl hcf)).2.2⟩

/-- Witness for the amended C2 in world wc2, whose budget counter reads
25 and whose primary cache holds staleSeries. -/
theorem budget_exhausted_primary_skipped_witness :
    (mdmFetchTicker wc2 "SPY" "1y" true true 24).avCalls = 0 ∧
    (wc2.avCacheFile = some (.readable staleSeries) →
      (mdmFetchTicker wc2 "SPY" "1y" true true 24).res = .ok staleSeries ∧
      (mdmFetchTicker wc2 "SPY" "1y" true true 24).yfCalls = 0) ∧
    (wc2.avCacheFile = none →
      (mdmFetchTicker wc2 "SPY" "1y" true true 24).res =
        (yfFetchTicker "1y" true true 24 wc2.hour wc2.yfTodayFile
          wc2.yfAgeSeconds wc2.yfStaleFile wc2.yfNet).res ∧
      (mdmFetchTicker wc2 "SPY" "1y" true true 24).yfCalls =
        (yfFetchTicker "1y" true true 24 wc2.hour wc2.yfTodayFile
          wc2.yfAgeSeconds wc2.yfStaleFile wc2.yfNet).netCalls) :=
  budget_exhausted_primary_skipped wc2 "SPY" "1y" true true 24 25 staleSeries
    (by decide) rfl (by decide)

theorem mdmPrimary_err_res (w : World) (period : String) (u a : Bool)
    (ttl : ℕ) (avR : AVResult) (e : MDErr) (he : avR.res = .err e) :
    mdmPrimary w period u a ttl avR =
      mdmSecondary w period avR
        (yfFetchTicker period u a ttl w.hour w.yfTodayFile w.yfAgeSeconds
          w.yfStaleFile w.yfNet) := by
  unfold mdmPrimary
  rw [he]

theorem mdmSecondary_err (w : World) (period : String) (avR : AVResult)
    (yfR : YFResult) (e : MDErr) (hy : yfR.res = .err e) :
    mdmSecondary w period avR yfR =
      mdmLastResort avR yfR e
        (avFetchTicker w.today period true true w.avCacheFile avR.budget
          w.avNet) := by
  unfold mdmSecondary
  rw [hy]

/-- Claim C3 (amended): when both providers fail, the orchestrator returns
the prior Alpha Vantage cache entry only when that entry reads and holds
data through yesterday (the last-resort call re-checks freshness and, when
budget remains, even re-attempts the network); the allow_stale kwarg the
caller passes does not change this, since the last-resort call hard-codes
allow_stale.  When no primary cache entry exists, the error that
propagates is the raw Yahoo provider error - no AllSourcesExhaustedError
type exists in the code. -/
theorem both_fail_fallback_behavior
    (w : World) (ticker period : String) (useCache allowStale : Bool)
    (ttl : ℕ) (s : Series) (m0 m1 : String) (e0 e1 : NetErr)
    (hT : ticker ≠ "^VIX")
    (hA0 : w.avNet (period_to_outputsize period) 0 = .error m0)
    (hA1 : w.avNet (period_to_outputsize period) 1 = .error m1)
    (hY0 : w.yfNet period 0 = .exn e0) (hY1 : w.yfNet period 1 = .exn e1)
    (hYT : w.yfTodayFile = none) (hYS : w.yfStaleFile = none) :
    (w.avCacheFile = some (.readable s) → s.isEmpty = false →
      w.today - 1 ≤ lastBarDate s →
      (mdmFetchTicker w ticker period useCache allowStale ttl).res = .ok s) ∧
    (w.avCacheFile = none →
      isYahooProviderError
        (mdmFetchTicker w ticker period useCache allowStale ttl).res = true ∧
      (mdmFetchTicker w ticker period useCache allowStale ttl).res ≠
        .err .allSourcesExhausted) := by
  obtain ⟨mm, hyf⟩ := yfFetchTicker_both_exn period useCache allowStale ttl
    w.hour w.yfAgeSeconds w.yfNet e0 e1 hY0 hY1
  constructor
  · intro hcf hs hd
    cases hbc : check_api_budget w.avBudget with
    | false =>
        rw [mdm_budget_blocked_readable w ticker period useCache allowStale
          ttl s hT hbc hcf]
    | true =>
        unfold mdmFetchTicker
        rw [if_neg hT, avFetchTicker_no_cache,
          avFetchLive_net_errors period true w.avCacheFile w.avBudget w.avNet
            m0 m1 hbc hA0 hA1,
          mdmPrimary_err_res w period useCache allowStale ttl _
            (.providerError "alphavantage"
              ("Failed to fetch from Alpha Vantage: " ++ m1)) rfl,
          hYT, hYS, mdmSecondary_err w period _ _ _ hyf, hcf,
          avFetchTicker_cache_hit w.today period true s _ w.avNet hs hd]
        rfl
  · intro hcf
    have hres : (mdmFetchTicker w ticker period useCache allowStale ttl).res =
        .err (.providerError "yahoo" mm) := by
      cases hbc : check_api_budget w.avBudget with
      | false =>
          have h2 := (mdm_budget_blocked_noread w ticker period useCache
            allowStale ttl hT hbc (Or.inl hcf)).2.1
          rw [hYT, hYS] at h2
          exact h2.trans hyf
      | true =>
          unfold mdmFetchTicker
          rw [if_neg hT, avFetchTicker_no_cache,
            avFetchLive_net_errors period true w.avCacheFile w.avBudget
              w.avNet m0 m1 hbc hA0 hA1,
            mdmPrimary_err_res w period useCache allowStale ttl _
              (.providerError "alphavantage"
                ("Failed to fetch from Alpha Vantage: " ++ m1)) rfl,
            hYT, hYS, mdmSecondary_err w period _ _ _ hyf, hcf,
            avFetchTicker_none_cache,
            avFetchLive_net_errors period true none _ w.avNet m0 m1 hbc
              hA0 hA1]
          rfl
    rw [hres]
    exact ⟨rfl, by simp⟩

/-- Witness for the amended C3 in world wAm3, whose primary cache entry is
fresh through day 9 while both networks fail on every attempt. -/
theorem both_fail_fallback_behavior_witness :
    (wAm3.avCacheFile = some (.readable freshSeries) →
      freshSeries.isEmpty = false →
      wAm3.today - 1 ≤ lastBarDate freshSeries →
      (mdmFetchTicker wAm3 "SPY" "1y" true true 24).res = .ok freshSeries) ∧
    (wAm3.avCacheFile = none →
      isYahooProviderError
        (mdmFetchTicker wAm3 "SPY" "1y" true true 24).res = true ∧
      (mdmFetchTicker wAm3 "SPY" "1y" true true 24).res ≠
        .err .allSourcesExhausted) :=
  both_fail_fallback_behavior wAm3 "SPY" "1y" true true 24 freshSeries
    "connection timeout" "connection timeout"
    ⟨"connection reset", false, false⟩ ⟨"connection reset", false, false⟩
    (by decide) rfl rfl rfl rfl rfl rfl

/-- Claim C4 (amended): in the Yahoo client an exception whose message
signals no data (and is not rate limited) is not retried - the first and
only network attempt goes straight to the stale fallback; but an empty
successful response is retried, so that call dispatches two network
attempts; and the Alpha Vantage client retries every failure, including a
first-attempt error, so it too dispatches two attempts. -/
theorem no_data_error_not_retried
    (period : String) (allowStale aS2 : Bool) (ttl hour : ℕ)
    (todayFile : Option CacheFile) (age : ℚ) (staleFile : Option CacheFile)
    (net net2 : String → ℕ → YNet) (e : NetErr)
    (today : ℕ) (avNet : String → ℕ → Except String AVRaw) (m : String)
    (h1 : net period 0 = .exn e) (h2 : e.hasNoData = true)
    (h3 : e.isRateLimited = false) (h4 : net2 period 0 = .empty)
    (h5 : avNet (period_to_outputsize period) 0 = .error m) :
    yfFetchTicker period false allowStale ttl hour todayFile age staleFile net =
      yfStaleFallback allowStale staleFile e 1 ∧
    (yfFetchTicker period false allowStale ttl hour todayFile age staleFile
      net2).netCalls = 2 ∧
    (avFetchTicker today period false aS2 none .absent avNet).netCalls = 2 := by
  refine ⟨?_, ?_, ?_⟩
  · show yfLive period allowStale staleFile net = _
    unfold yfLive
    rw [h1]
    show yfHandleExn period allowStale staleFile net e = _
    unfold yfHandleExn
    rw [h3, h2]
    rfl
  · show (yfLive period allowStale staleFile net2).netCalls = 2
    unfold yfLive
    rw [h4]
    exact yfSecondAttempt_netCalls period allowStale staleFile net2
  · rw [avFetchTicker_no_cache]
    unfold avFetchLive
    rw [show check_api_budget .absent = true from rfl]
    simp only [Bool.not_true, Bool.false_eq_true, if_false, h5]
    cases hn : avNet (period_to_outputsize period) 1 with
    | ok raw => rfl
    | error m2 => rfl

/-- Witness for the amended C4: a no-data exception is answered in one
attempt, while an empty response and an Alpha Vantage error each lead to a
second attempt. -/
theorem no_data_error_not_retried_witness :
    yfFetchTicker "1y" false false 24 12 none 0 none netNoData =
      yfStaleFallback false none noDataNetErr 1 ∧
    (yfFetchTicker "1y" false false 24 12 none 0 none netEmptyThenOk).netCalls
      = 2 ∧
    (avFetchTicker 10 "1y" false true none .absent netFailThenOk).netCalls
      = 2 :=
  no_data_error_not_retried "1y" false true 24 12 none 0 none netNoData
    netEmptyThenOk noDataNetErr 10 netFailThenOk "timeout" rfl rfl rfl rfl rfl

/-- Claim C5 (amended): the daily budget counter never decreases across
any sequence of check and increment operations, stays nonnegative when
the day starts without a counter file, and a counter at or past the limit
blocks every network dispatch of a fetch; however the quota itself can
still be exceeded (see the counterexample) because one check covers both
retry attempts of a fetch and failed attempts are never counted. -/
theorem budget_monotone_nonneg_gate
    (ops : List BudgetOp) (b : BudgetFile) (today : ℕ) (period : String)
    (useCache allowStale : Bool) (cacheFile : Option CacheFile)
    (net : String → ℕ → Except String AVRaw) (n : ℤ) (hN : 25 ≤ n) :
    readCalls b ≤ readCalls (applyBudgetOps b ops) ∧
    0 ≤ readCalls (applyBudgetOps .absent ops) ∧
    (avFetchTicker today period useCache allowStale cacheFile (.readable n)
      net).netCalls = 0 := by
  refine ⟨readCalls_applyBudgetOps_mono ops b, ?_, ?_⟩
  · exact le_trans (le_refl 0) (readCalls_applyBudgetOps_mono ops .absent)
  · exact avFetchTicker_budget_gate today period useCache allowStale
      cacheFile net n hN

/-- Witness for the amended C5 on a concrete operation sequence and a
counter at the limit. -/
theorem budget_monotone_nonneg_gate_witness :
    readCalls .corrupt ≤
      readCalls (applyBudgetOps .corrupt [.increment, .check, .increment]) ∧
    0 ≤ readCalls (applyBudgetOps .absent [.increment, .check, .increment]) ∧
    (avFetchTicker 10 "1y" false true none (.readable 25)
      netFailThenOk).netCalls = 0 :=
  budget_monotone_nonneg_gate [.increment, .check, .increment] .corrupt 10
    "1y" false true none netFailThenOk 25 (by decide)

/-- Claim C7 (amended): a VIX fetch goes straight to the Yahoo client -
zero Alpha Vantage network calls and zero budget checks, with the
orchestrator outcome exactly the Yahoo client outcome; but it is not
fetched fresh every time: when the Yahoo cache check passes and the
same-day file is readable, the cached series is returned with zero fetch
attempts, and only when that cache check fails is at least one fetch
attempt guaranteed. -/
theorem vix_routes_to_yahoo_only (w : World) (period : String)
    (useCache allowStale : Bool) (ttl : ℕ) (s : Series) :
    mdmFetchTicker w "^VIX" period useCache allowStale ttl =
      { res := (yfFetchTicker period useCache allowStale ttl w.hour
          w.yfTodayFile w.yfAgeSeconds w.yfStaleFile w.yfNet).res,
        avCalls := 0,
        yfCalls := (yfFetchTicker period useCache allowStale ttl w.hour
          w.yfTodayFile w.yfAgeSeconds w.yfStaleFile w.yfNet).netCalls,
        budgetChecks := 0 } ∧
    ((useCache && is_cache_valid w.yfTodayFile.isSome w.yfAgeSeconds ttl
        w.hour) = false →
      1 ≤ (yfFetchTicker period useCache allowStale ttl w.hour w.yfTodayFile
        w.yfAgeSeconds w.yfStaleFile w.yfNet).netCalls) ∧
    ((useCache && is_cache_valid w.yfTodayFile.isSome w.yfAgeSeconds ttl
        w.hour) = true →
      w.yfTodayFile = some (.readable s) →
      yfFetchTicker period useCache allowStale ttl w.hour w.yfTodayFile
          w.yfAgeSeconds w.yfStaleFile w.yfNet =
        { res := .ok s, netCalls := 0, cacheWrite := none }) := by
  refine ⟨rfl, ?_, ?_⟩
  · intro h
    unfold yfFetchTicker
    rw [h]
    exact yfLive_netCalls_pos period allowStale w.yfStaleFile w.yfNet
  · intro hc hf
    unfold yfFetchTicker
    rw [hc, hf]
    rfl

/-- Witness for the amended C7 in two worlds: in wc1 the Yahoo daily cache
file is absent, so the cache check fails and a fetch attempt is mandatory;
in wc7 a valid readable same-day file exists, so the cached series is
served with zero attempts. -/
theorem vix_routes_to_yahoo_only_witness :
    (mdmFetchTicker wc1 "^VIX" "1y" true true 24 =
      { res := (yfFetchTicker "1y" true true 24 wc1.hour wc1.yfTodayFile
          wc1.yfAgeSeconds wc1.yfStaleFile wc1.yfNet).res,
        avCalls := 0,
        yfCalls := (yfFetchTicker "1y" true true 24 wc1.hour wc1.yfTodayFile
          wc1.yfAgeSeconds wc1.yfStaleFile wc1.yfNet).netCalls,
        budgetChecks := 0 } ∧
    ((true && is_cache_valid wc1.yfTodayFile.isSome wc1.yfAgeSeconds 24
        wc1.hour) = false →
      1 ≤ (yfFetchTicker "1y" true true 24 wc1.hour wc1.yfTodayFile
        wc1.yfAgeSeconds wc1.yfStaleFile wc1.yfNet).netCalls) ∧
    ((true && is_cache_valid wc1.yfTodayFile.isSome wc1.yfAgeSeconds 24
        wc1.hour) = true →
      wc1.yfTodayFile = some (.readable vixSeries) →
      yfFetchTicker "1y" true true 24 wc1.hour wc1.yfTodayFile
          wc1.yfAgeSeconds wc1.yfStaleFile wc1.yfNet =
        { res := .ok vixSeries, netCalls := 0, cacheWrite := none })) ∧
    (mdmFetchTicker wc7 "^VIX" "1y" true true 24 =
      { res := (yfFetchTicker "1y" true true 24 wc7.hour wc7.yfTodayFile
          wc7.yfAgeSeconds wc7.yfStaleFile wc7.yfNet).res,
        avCalls := 0,
        yfCalls := (yfFetchTicker "1y" true true 24 wc7.hour wc7.yfTodayFile
          wc7.yfAgeSeconds wc7.yfStaleFile wc7.yfNet).netCalls,
        budgetChecks := 0 } ∧
    ((true && is_cache_valid wc7.yfTodayFile.isSome wc7.yfAgeSeconds 24
        wc7.hour) = false →
      1 ≤ (yfFetchTicker "1y" true true 24 wc7.hour wc7.yfTodayFile
        wc7.yfAgeSeconds wc7.yfStaleFile wc7.yfNet).netCalls) ∧
    ((true && is_cache_valid wc7.yfTodayFile.isSome wc7.yfAgeSeconds 24
        wc7.hour) = true →
      wc7.yfTodayFile = some (.readable vixSeries) →
      yfFetchTicker "1y" true true 24 wc7.hour wc7.yfTodayFile
          wc7.yfAgeSeconds wc7.yfStaleFile wc7.yfNet =
        { res := .ok vixSeries, netCalls := 0, cacheWrite := none })) :=
  ⟨vix_routes_to_yahoo_only wc1 "1y" true true 24 vixSeries,
   vix_routes_to_yahoo_only wc7 "1y" true true 24 vixSeries⟩
